import Mathlib

/-!
Shallow embedding of the `zfs` Go package (src/pkg/zfs/zfs.go) of the
zfshttpd repository, together with proofs about the claims of its
specification.

Modelling conventions:
* A subprocess is represented by its argument vector (the arguments after
  the `zfs` binary path).  The behaviour of the external tool is a
  parameter `ex : Exec`, mapping an argument vector either to the lines of
  its standard output (`Except.ok lines`, the `bufio.Scanner` splitting of
  the raw bytes) or to a failure message (`Except.error cause`, a non-zero
  exit or a spawn failure).
* Every method returns, next to its Go result pair `(value, err)`
  (`err : Option String`, `none` being Go's `nil` error), the list of
  argument vectors of the subprocesses it spawned, in order, so that
  claims about "no subprocess is spawned" and about which call is issued
  can be stated.
* Go maps (`Filesystems`, `Snapshots`) are association lists whose keys
  are kept unique by construction, mirroring `l[name]` lookup, insertion
  and in-place mutation.
* `fmt.Sscanf(line, "%s\t%s\t%s", ...)` is modelled by splitting the line
  into maximal whitespace-free tokens; a missing token leaves the Go
  variable at its zero value `""`.
* `strconv.ParseInt(value, 10, 64)` is modelled by `parseInt64`:
  an optional sign followed by at least one decimal digit, with the
  result required to fit in a signed 64-bit integer.
-/

/-- The argument vector of one invocation of the external tool. -/
abbrev Argv := List String

/-- The external tool: argument vector to stdout lines or failure. -/
abbrev Exec := Argv → Except String (List String)

/-- `type Zpool struct { Name string }`. -/
structure Zpool where
  Name : String
deriving DecidableEq, Repr

/-- `type Filesystem struct { Name, GUID, Origin string; CreateTxg int64 }`. -/
structure Filesystem where
  Name : String
  GUID : String
  Origin : String
  CreateTxg : Int
deriving DecidableEq, Repr

/-- `type Snapshot struct { Name, GUID string; CreateTxg int64 }`. -/
structure Snapshot where
  Name : String
  GUID : String
  CreateTxg : Int
deriving DecidableEq, Repr

/-- The zero value of `Filesystem`. -/
def fsZero : Filesystem := ⟨"", "", "", 0⟩

/-- The zero value of `Snapshot`. -/
def snapZero : Snapshot := ⟨"", "", 0⟩

/-- `type Filesystems map[string]*Filesystem`, as an association list with
unique keys (first-insertion order). -/
abbrev Filesystems := List (String × Filesystem)

/-- `type Snapshots map[string]*Snapshot`, as an association list with
unique keys (first-insertion order). -/
abbrev Snapshots := List (String × Snapshot)

/-- In-place mutation of the record stored under key `k` of a Go map. -/
def updMap {α : Type} (m : List (String × α)) (k : String) (f : α → α) :
    List (String × α) :=
  m.map (fun p => if p.1 = k then (p.1, f p.2) else p)

/-- `strings.HasPrefix(s, pre)`. -/
def goHasPrefix (s pre : String) : Bool :=
  pre.data.isPrefixOf s.data

/-- Go's `%q` formatting of a plain name (no escaping needed for the
names in play). -/
def q (s : String) : String := "\"" ++ s ++ "\""

/-- Split a list of characters into maximal runs of non-whitespace
characters, as the `%s` verbs of `fmt.Sscanf` consume them. -/
def splitToks : List Char → List Char → List String
  | [], acc => if acc.isEmpty then [] else [String.mk acc.reverse]
  | c :: cs, acc =>
    if c.isWhitespace then
      if acc.isEmpty then splitToks cs []
      else String.mk acc.reverse :: splitToks cs []
    else splitToks cs (c :: acc)

/-- The whitespace-separated tokens of a line. -/
def toks (line : String) : List String := splitToks line.data []

/-- Decimal value of a digit run. -/
def digitsVal (cs : List Char) : Nat :=
  cs.foldl (fun n c => n * 10 + (c.toNat - 48)) 0

/-- `strconv.ParseInt(s, 10, 64)`: `none` is a conversion error. -/
def parseInt64 (s : String) : Option Int :=
  let p : Int × List Char :=
    match s.data with
    | '+' :: r => (1, r)
    | '-' :: r => (-1, r)
    | cs => (1, cs)
  if p.2.isEmpty then none
  else if p.2.all Char.isDigit then
    let v : Int := p.1 * (digitsVal p.2 : Nat)
    if -(2 : Int) ^ 63 ≤ v ∧ v ≤ 2 ^ 63 - 1 then some v else none
  else none

/-- `getCommandString` on an argument vector (the binary is `zfs`). -/
def cmdString (argv : Argv) : String :=
  "zfs " ++ String.intercalate " " argv

/-- The argument vector of the bulk snapshot query of `ListSnapshots`. -/
def snapshotsArgv (z : Zpool) : Argv :=
  ["get", "-t", "snapshot", "-Hro", "name,property,value", "guid,createtxg", z.Name]

/-- The argument vector of the bulk filesystem query of `ListFilesystems`. -/
def filesystemsArgv (z : Zpool) : Argv :=
  ["get", "-t", "filesystem", "-Hro", "name,property,value", "origin,guid,createtxg", z.Name]

/-- The argument vector of the single-record query of `GetFilesystem`. -/
def getFsArgv (name : String) : Argv :=
  ["get", "-t", "filesystem", "-Ho", "property,value", "name,guid,createtxg,origin", name]

/-- The argument vector of the single-record query of `GetSnapshot`. -/
def getSnapArgv (name : String) : Argv :=
  ["get", "-t", "snapshot", "-Ho", "property,value", "name,guid,createtxg", name]

/-- The argument vector of the existence probe of `ExistsByName`. -/
def existsArgv (name : String) : Argv :=
  ["get", "-Ho", "value", "name", name]

/-- `name`, the first `%s` of the three-column `fmt.Sscanf` (its Go zero
value `""` when the line has no such token). -/
def lineName3 (l : String) : String := ((toks l).get? 0).getD ""

/-- `property`, the second `%s` of the three-column `fmt.Sscanf`. -/
def lineProp3 (l : String) : String := ((toks l).get? 1).getD ""

/-- `value`, the third `%s` of the three-column `fmt.Sscanf`. -/
def lineVal3 (l : String) : String := ((toks l).get? 2).getD ""

/-- `property`, the first `%s` of the two-column `fmt.Sscanf`. -/
def lineProp2 (l : String) : String := ((toks l).get? 0).getD ""

/-- `value`, the second `%s` of the two-column `fmt.Sscanf`. -/
def lineVal2 (l : String) : String := ((toks l).get? 1).getD ""

/-- The parsing loop of `ListSnapshots`: scan the lines, creating the
record for a dataset name at its first occurrence and mutating it on
later ones; `guid` and `createtxg` are recognized, other properties are
ignored; a malformed `createtxg` stops the scan with an error. -/
def parseSnapLines : Snapshots → List String → Snapshots × Option String
  | m, [] => (m, none)
  | m, line :: ls =>
    let m1 := if (m.lookup (lineName3 line)).isSome then m
              else m ++ [(lineName3 line, { snapZero with Name := lineName3 line })]
    match lineProp3 line with
    | "guid" =>
      parseSnapLines (updMap m1 (lineName3 line) (fun ds => { ds with GUID := lineVal3 line })) ls
    | "createtxg" =>
      match parseInt64 (lineVal3 line) with
      | none =>
        (m1, some ("unable to convert createtxg value " ++ q (lineVal3 line) ++ " to int64"))
      | some p =>
        parseSnapLines (updMap m1 (lineName3 line) (fun ds => { ds with CreateTxg := p })) ls
    | _ => parseSnapLines m1 ls

/-- The parsing loop of `ListFilesystems`: as `parseSnapLines`, with
`origin`, `guid` and `createtxg` recognized. -/
def parseFsLines : Filesystems → List String → Filesystems × Option String
  | m, [] => (m, none)
  | m, line :: ls =>
    let m1 := if (m.lookup (lineName3 line)).isSome then m
              else m ++ [(lineName3 line, { fsZero with Name := lineName3 line })]
    match lineProp3 line with
    | "origin" =>
      parseFsLines (updMap m1 (lineName3 line) (fun ds => { ds with Origin := lineVal3 line })) ls
    | "guid" =>
      parseFsLines (updMap m1 (lineName3 line) (fun ds => { ds with GUID := lineVal3 line })) ls
    | "createtxg" =>
      match parseInt64 (lineVal3 line) with
      | none =>
        (m1, some ("unable to convert createtxg value " ++ q (lineVal3 line) ++ " to int64"))
      | some p =>
        parseFsLines (updMap m1 (lineName3 line) (fun ds => { ds with CreateTxg := p })) ls
    | _ => parseFsLines m1 ls

/-- `Zpool.ListSnapshots`: bulk query, then parse. -/
def Zpool.ListSnapshots (ex : Exec) (z : Zpool) :
    (Snapshots × Option String) × List Argv :=
  let argv := snapshotsArgv z
  match ex argv with
  | .error e =>
    (([], some ("unable to run command " ++ q (cmdString argv) ++ ": " ++ e)), [argv])
  | .ok lines => (parseSnapLines [] lines, [argv])

/-- `Zpool.ListFilesystems`: bulk query, then parse. -/
def Zpool.ListFilesystems (ex : Exec) (z : Zpool) :
    (Filesystems × Option String) × List Argv :=
  let argv := filesystemsArgv z
  match ex argv with
  | .error e =>
    (([], some ("unable to run command " ++ q (cmdString argv) ++ ": " ++ e)), [argv])
  | .ok lines => (parseFsLines [] lines, [argv])

/-- The property/value parsing loop of `GetFilesystem`: `name`, `guid`,
`createtxg` and `origin` set fields; other properties are ignored; a
malformed `createtxg` stops the scan with an error. -/
def parseGetFsLines : Filesystem → List String → Filesystem × Option String
  | ds, [] => (ds, none)
  | ds, line :: ls =>
    match lineProp2 line with
    | "name" => parseGetFsLines { ds with Name := lineVal2 line } ls
    | "guid" => parseGetFsLines { ds with GUID := lineVal2 line } ls
    | "createtxg" =>
      match parseInt64 (lineVal2 line) with
      | none =>
        (ds, some ("unable to parse createtxg value " ++ q (lineVal2 line) ++ " to int64"))
      | some p => parseGetFsLines { ds with CreateTxg := p } ls
    | "origin" => parseGetFsLines { ds with Origin := lineVal2 line } ls
    | _ => parseGetFsLines ds ls

/-- The property/value parsing loop of `GetSnapshot`: as
`parseGetFsLines` without the `origin` case. -/
def parseGetSnapLines : Snapshot → List String → Snapshot × Option String
  | ds, [] => (ds, none)
  | ds, line :: ls =>
    match lineProp2 line with
    | "name" => parseGetSnapLines { ds with Name := lineVal2 line } ls
    | "guid" => parseGetSnapLines { ds with GUID := lineVal2 line } ls
    | "createtxg" =>
      match parseInt64 (lineVal2 line) with
      | none =>
        (ds, some ("unable to parse createtxg value " ++ q (lineVal2 line) ++ " to int64"))
      | some p => parseGetSnapLines { ds with CreateTxg := p } ls
    | _ => parseGetSnapLines ds ls

/-- `Zpool.GetFilesystem`: pool-prefix check, single-record query,
property/value parse. -/
def Zpool.GetFilesystem (ex : Exec) (z : Zpool) (name : String) :
    (Filesystem × Option String) × List Argv :=
  if goHasPrefix name z.Name = false then
    ((fsZero, some ("bad request for filesystem " ++ q name ++ " on zpool " ++ q z.Name)), [])
  else
    match ex (getFsArgv name) with
    | .error e =>
      ((fsZero, some ("filesystem " ++ q name ++ " not found: " ++ e)), [getFsArgv name])
    | .ok lines => (parseGetFsLines fsZero lines, [getFsArgv name])

/-- `Zpool.GetSnapshot`: pool-prefix check, single-record query,
property/value parse (the command failure message carries no cause:
`errors.Errorf`, not a wrap). -/
def Zpool.GetSnapshot (ex : Exec) (z : Zpool) (name : String) :
    (Snapshot × Option String) × List Argv :=
  if goHasPrefix name z.Name = false then
    ((snapZero, some ("bad request for snapshot " ++ q name ++ " on zpool " ++ q z.Name)), [])
  else
    match ex (getSnapArgv name) with
    | .error _ =>
      ((snapZero, some ("snapshot " ++ q name ++ " not found")), [getSnapArgv name])
    | .ok lines => (parseGetSnapLines snapZero lines, [getSnapArgv name])

/-- The command `Zpool.CreateFilesystem` builds for a validated request:
`create` when the origin is empty or `-`, `clone` otherwise. -/
def createFsArgv (fs : Filesystem) : Argv :=
  if fs.Origin.length = 0 ∨ fs.Origin = "-" then ["create", fs.Name]
  else ["clone", fs.Origin, fs.Name]

/-- `Zpool.CreateFilesystem`: validation, create/clone call, then a fresh
`GetFilesystem` on the new name; each failure path returns the input
record `fs` with a wrapped error. -/
def Zpool.CreateFilesystem (ex : Exec) (z : Zpool) (fs : Filesystem) :
    (Filesystem × Option String) × List Argv :=
  if fs.Name.length = 0 ∨ fs.CreateTxg ≠ 0 ∨ goHasPrefix fs.Name z.Name = false then
    ((fs, some ("filesystem " ++ q fs.Name ++ " cannot be created on zpool " ++ q z.Name)), [])
  else
    let cmd := createFsArgv fs
    match ex cmd with
    | .error e =>
      ((fs, some ("unable to create filesystem " ++ q fs.Name ++ ": " ++ e)), [cmd])
    | .ok _ =>
      let r := z.GetFilesystem ex fs.Name
      match r.1.2 with
      | some e =>
        ((fs, some ("unable to retrieve filesystem " ++ q fs.Name ++ " after creation: " ++ e)),
          cmd :: r.2)
      | none => ((r.1.1, none), cmd :: r.2)

/-- `Zpool.CreateSnapshot`: validation, `snapshot` call, then a fresh
`GetSnapshot` on the new name (the retrieval failure message quotes the
name of the snapshot returned by the failed fetch). -/
def Zpool.CreateSnapshot (ex : Exec) (z : Zpool) (snapshotName : String) :
    (Snapshot × Option String) × List Argv :=
  if snapshotName.length = 0 ∨ goHasPrefix snapshotName z.Name = false then
    ((snapZero, some ("snapshot " ++ q snapshotName ++ " cannot be created on zpool " ++ q z.Name)), [])
  else
    let cmd := ["snapshot", snapshotName]
    match ex cmd with
    | .error e =>
      ((snapZero, some ("unable to create snapshot " ++ q snapshotName ++ ": " ++ e)), [cmd])
    | .ok _ =>
      let r := z.GetSnapshot ex snapshotName
      let snap := r.1.1
      match r.1.2 with
      | some e =>
        ((snap, some ("unable to retrieve snapshot " ++ q snap.Name ++ " after creation: " ++ e)),
          cmd :: r.2)
      | none => ((snap, none), cmd :: r.2)

/-- `Zpool.ClonesOf`: list all filesystems and keep those whose `Origin`
equals the snapshot's name. -/
def Zpool.ClonesOf (ex : Exec) (z : Zpool) (s : Snapshot) :
    (List Filesystem × Option String) × List Argv :=
  let r := z.ListFilesystems ex
  match r.1.2 with
  | some e => (([], some e), r.2)
  | none =>
    (((r.1.1.map Prod.snd).filter (fun fs => fs.Origin = s.Name), none), r.2)

/-- `strings.Split(s, "@")[0]`: the substring before the first `@`
(the whole string when there is none). -/
def beforeAt (s : String) : String :=
  String.mk (s.data.takeWhile (fun c => c ≠ '@'))

/-- `Zpool.SnapshotsOf`: list all snapshots and keep those whose name
before the first `@` equals the filesystem's name. -/
def Zpool.SnapshotsOf (ex : Exec) (z : Zpool) (fs : Filesystem) :
    (List Snapshot × Option String) × List Argv :=
  let r := z.ListSnapshots ex
  match r.1.2 with
  | some e => (([], some e), r.2)
  | none =>
    (((r.1.1.map Prod.snd).filter (fun ds => beforeAt ds.Name = fs.Name), none), r.2)

/-- `Zpool.ExistsByName`: empty or out-of-pool names short-circuit to
`false` with no subprocess; otherwise the probe's success is the answer. -/
def Zpool.ExistsByName (ex : Exec) (z : Zpool) (name : String) :
    Bool × List Argv :=
  if name.length = 0 ∨ goHasPrefix name z.Name = false then (false, [])
  else
    match ex (existsArgv name) with
    | .error _ => (false, [existsArgv name])
    | .ok _ => (true, [existsArgv name])

/-- An external tool whose every invocation succeeds with the given
stdout lines. -/
def exLines (lines : List String) : Exec := fun _ => .ok lines

/-- An external tool whose every invocation fails. -/
def exFail : Exec := fun _ => .error "exit status 1"

/-- An external tool answering every bulk (`-Hro`) query with a
three-column stream whose `createtxg` value is malformed, and every
other query with a two-column stream whose `createtxg` value is
malformed. -/
def exBadTxg : Exec := fun a =>
  if a.get? 3 = some "-Hro" then .ok ["tank/a\tcreatetxg\tabc"]
  else .ok ["createtxg\tabc"]

/-- An external tool where creations succeed and every query answers
with a fixed single-record property stream. -/
def exCreateOk : Exec := fun a =>
  if a.get? 0 = some "create" ∨ a.get? 0 = some "clone" ∨ a.get? 0 = some "snapshot" then
    .ok []
  else .ok ["name\ttank/fs1", "guid\tG9", "createtxg\t7"]

/-- An external tool where creations succeed but every query fails. -/
def exCreateOkGetFail : Exec := fun a =>
  if a.get? 0 = some "create" ∨ a.get? 0 = some "clone" ∨ a.get? 0 = some "snapshot" then
    .ok []
  else .error "dataset does not exist"

/-- Well-formedness of an embedded Go map: its keys are pairwise
distinct and the record stored under a key carries that key as its
name. -/
def goodMap {α : Type} (nameOf : α → String) (m : List (String × α)) : Prop :=
  (m.map Prod.fst).Nodup ∧ ∀ p ∈ m, nameOf p.2 = p.1

/-! Helper lemmas about the embedded primitives. -/

/-- A prefix of `a` is a prefix of `a ++ b`. -/
theorem goHasPrefix_append (p a b : String) (h : goHasPrefix a p = true) :
    goHasPrefix (a ++ b) p = true := by
  unfold goHasPrefix at h ⊢
  rw [String.data_append]
  rw [List.isPrefixOf_iff_prefix] at h ⊢
  exact h.trans (List.prefix_append _ _)

/-- A string of at most `a`'s length that is not a prefix of `a` is not
a prefix of `a ++ b` either. -/
theorem goHasPrefix_append_false (p a b : String)
    (hlen : p.data.length ≤ a.data.length) (h : goHasPrefix a p = false) :
    goHasPrefix (a ++ b) p = false := by
  by_contra hc
  rw [Bool.not_eq_false] at hc
  unfold goHasPrefix at h hc
  rw [String.data_append, List.isPrefixOf_iff_prefix] at hc
  have hp : p.data.isPrefixOf a.data = true := by
    rw [List.isPrefixOf_iff_prefix]
    exact List.prefix_of_prefix_length_le hc (List.prefix_append _ _) hlen
  rw [hp] at h
  cases h

/-- The length of the character data of an appended string. -/
theorem data_length_append (a b : String) :
    (a ++ b).data.length = a.data.length + b.data.length := by
  rw [String.data_append, List.length_append]

/-- A key whose lookup fails is not among the keys of the map. -/
theorem lookup_isSome_false {α : Type} (m : List (String × α)) (k : String)
    (h : (m.lookup k).isSome = false) : ∀ p ∈ m, p.1 ≠ k := by
  induction m with
  | nil => intro p hp; cases hp
  | cons a m ih =>
    intro p hp
    by_cases hk : (k == a.1) = true
    · simp [List.lookup, hk] at h
    · rw [Bool.not_eq_true] at hk
      simp only [List.lookup, hk] at h
      rcases List.mem_cons.mp hp with rfl | hp'
      · intro he
        rw [beq_eq_false_iff_ne] at hk
        exact hk he.symm
      · exact ih h p hp'

/-- `updMap` does not change the keys of the map. -/
theorem updMap_map_fst {α : Type} (m : List (String × α)) (k : String) (f : α → α) :
    (updMap m k f).map Prod.fst = m.map Prod.fst := by
  unfold updMap
  rw [List.map_map]
  apply List.map_congr_left
  intro p _
  by_cases hp : p.1 = k <;> simp [hp]

/-- `updMap` with a name-preserving mutation preserves map
well-formedness. -/
theorem goodMap_updMap {α : Type} (nameOf : α → String) (m : List (String × α))
    (k : String) (f : α → α) (hf : ∀ a, nameOf (f a) = nameOf a)
    (h : goodMap nameOf m) : goodMap nameOf (updMap m k f) := by
  obtain ⟨h1, h2⟩ := h
  constructor
  · rw [updMap_map_fst]; exact h1
  · intro p hp
    unfold updMap at hp
    rw [List.mem_map] at hp
    obtain ⟨p0, hp0, hpe⟩ := hp
    by_cases hc : p0.1 = k
    · rw [if_pos hc] at hpe
      rw [← hpe]
      simpa using (hf p0.2).trans (h2 p0 hp0)
    · rw [if_neg hc] at hpe
      rw [← hpe]
      exact h2 p0 hp0

/-- Appending a record under a fresh key, with the key as its name,
preserves map well-formedness. -/
theorem goodMap_insert {α : Type} (nameOf : α → String) (m : List (String × α))
    (k : String) (a : α) (hk : (m.lookup k).isSome = false) (ha : nameOf a = k)
    (h : goodMap nameOf m) : goodMap nameOf (m ++ [(k, a)]) := by
  obtain ⟨h1, h2⟩ := h
  constructor
  · rw [List.map_append]
    apply List.Nodup.append h1 (by simp)
    intro x hx hx2
    simp only [List.map_cons, List.map_nil, List.mem_singleton] at hx2
    rw [List.mem_map] at hx
    obtain ⟨p, hpm, hpx⟩ := hx
    exact lookup_isSome_false m k hk p hpm (hpx.trans hx2)
  · intro p hp
    rcases List.mem_append.mp hp with hp' | hp'
    · exact h2 p hp'
    · rw [List.mem_singleton] at hp'
      rw [hp']
      exact ha

/-- The per-line record-creation step of the bulk parsers preserves map
well-formedness. -/
theorem goodMap_step {α : Type} (nameOf : α → String) (m : List (String × α))
    (k : String) (a : α) (ha : nameOf a = k) (h : goodMap nameOf m) :
    goodMap nameOf (if (m.lookup k).isSome then m else m ++ [(k, a)]) := by
  by_cases hc : (m.lookup k).isSome = true
  · rw [if_pos hc]; exact h
  · rw [Bool.not_eq_true] at hc
    rw [if_neg (by rw [hc]; exact Bool.false_ne_true)]
    exact goodMap_insert nameOf m k a hc ha h

/-- The parsing loop of `ListSnapshots` preserves map well-formedness,
whether or not it stops with an error. -/
theorem parseSnapLines_goodMap (ls : List String) :
    ∀ m, goodMap Snapshot.Name m →
      goodMap Snapshot.Name (parseSnapLines m ls).1 := by
  induction ls with
  | nil => intro m h; exact h
  | cons line ls ih =>
    intro m h
    have hm1 := goodMap_step Snapshot.Name m (lineName3 line)
      { snapZero with Name := lineName3 line } rfl h
    simp only [parseSnapLines]
    split
    · exact ih _ (goodMap_updMap _ _ _ _ (fun a => rfl) hm1)
    · split
      · exact hm1
      · exact ih _ (goodMap_updMap _ _ _ _ (fun a => rfl) hm1)
    · exact ih _ hm1

/-- The parsing loop of `ListFilesystems` preserves map well-formedness,
whether or not it stops with an error. -/
theorem parseFsLines_goodMap (ls : List String) :
    ∀ m, goodMap Filesystem.Name m →
      goodMap Filesystem.Name (parseFsLines m ls).1 := by
  induction ls with
  | nil => intro m h; exact h
  | cons line ls ih =>
    intro m h
    have hm1 := goodMap_step Filesystem.Name m (lineName3 line)
      { fsZero with Name := lineName3 line } rfl h
    simp only [parseFsLines]
    split
    · exact ih _ (goodMap_updMap _ _ _ _ (fun a => rfl) hm1)
    · exact ih _ (goodMap_updMap _ _ _ _ (fun a => rfl) hm1)
    · split
      · exact hm1
      · exact ih _ (goodMap_updMap _ _ _ _ (fun a => rfl) hm1)
    · exact ih _ hm1

/-- If some line of a three-column stream carries property `createtxg`
with an unconvertible value, the `ListSnapshots` parsing loop stops with
the conversion-failure error. -/
theorem parseSnapLines_txg_error (ls : List String) :
    ∀ m, (∃ l ∈ ls, lineProp3 l = "createtxg" ∧ parseInt64 (lineVal3 l) = none) →
      ∃ v, parseInt64 v = none ∧
        (parseSnapLines m ls).2 =
          some ("unable to convert createtxg value " ++ q v ++ " to int64") := by
  induction ls with
  | nil => intro m h; obtain ⟨l, hl, _⟩ := h; cases hl
  | cons line ls ih =>
    intro m h
    simp only [parseSnapLines]
    split
    next hguid =>
      apply ih
      obtain ⟨l, hl, hprop, hval⟩ := h
      rcases List.mem_cons.mp hl with rfl | hl'
      · rw [hguid] at hprop; exact absurd hprop (by decide)
      · exact ⟨l, hl', hprop, hval⟩
    next hct =>
      split
      next hv => exact ⟨lineVal3 line, hv, rfl⟩
      next p hp =>
        apply ih
        obtain ⟨l, hl, hprop, hval⟩ := h
        rcases List.mem_cons.mp hl with rfl | hl'
        · rw [hp] at hval; cases hval
        · exact ⟨l, hl', hprop, hval⟩
    next h1 h2 =>
      apply ih
      obtain ⟨l, hl, hprop, hval⟩ := h
      rcases List.mem_cons.mp hl with rfl | hl'
      · exact absurd hprop h2
      · exact ⟨l, hl', hprop, hval⟩

/-- If some line of a three-column stream carries property `createtxg`
with an unconvertible value, the `ListFilesystems` parsing loop stops
with the conversion-failure error. -/
theorem parseFsLines_txg_error (ls : List String) :
    ∀ m, (∃ l ∈ ls, lineProp3 l = "createtxg" ∧ parseInt64 (lineVal3 l) = none) →
      ∃ v, parseInt64 v = none ∧
        (parseFsLines m ls).2 =
          some ("unable to convert createtxg value " ++ q v ++ " to int64") := by
  induction ls with
  | nil => intro m h; obtain ⟨l, hl, _⟩ := h; cases hl
  | cons line ls ih =>
    intro m h
    simp only [parseFsLines]
    split
    next horig =>
      apply ih
      obtain ⟨l, hl, hprop, hval⟩ := h
      rcases List.mem_cons.mp hl with rfl | hl'
      · rw [horig] at hprop; exact absurd hprop (by decide)
      · exact ⟨l, hl', hprop, hval⟩
    next hguid =>
      apply ih
      obtain ⟨l, hl, hprop, hval⟩ := h
      rcases List.mem_cons.mp hl with rfl | hl'
      · rw [hguid] at hprop; exact absurd hprop (by decide)
      · exact ⟨l, hl', hprop, hval⟩
    next hct =>
      split
      next hv => exact ⟨lineVal3 line, hv, rfl⟩
      next p hp =>
        apply ih
        obtain ⟨l, hl, hprop, hval⟩ := h
        rcases List.mem_cons.mp hl with rfl | hl'
        · rw [hp] at hval; cases hval
        · exact ⟨l, hl', hprop, hval⟩
    next h1 h2 h3 =>
      apply ih
      obtain ⟨l, hl, hprop, hval⟩ := h
      rcases List.mem_cons.mp hl with rfl | hl'
      · exact absurd hprop h3
      · exact ⟨l, hl', hprop, hval⟩

/-- If some line of a two-column stream carries property `createtxg`
with an unconvertible value, the `GetFilesystem` parsing loop stops
with the parse-failure error. -/
theorem parseGetFsLines_txg_error (ls : List String) :
    ∀ ds, (∃ l ∈ ls, lineProp2 l = "createtxg" ∧ parseInt64 (lineVal2 l) = none) →
      ∃ v, parseInt64 v = none ∧
        (parseGetFsLines ds ls).2 =
          some ("unable to parse createtxg value " ++ q v ++ " to int64") := by
  induction ls with
  | nil => intro ds h; obtain ⟨l, hl, _⟩ := h; cases hl
  | cons line ls ih =>
    intro ds h
    simp only [parseGetFsLines]
    split
    next hname =>
      apply ih
      obtain ⟨l, hl, hprop, hval⟩ := h
      rcases List.mem_cons.mp hl with rfl | hl'
      · rw [hname] at hprop; exact absurd hprop (by decide)
      · exact ⟨l, hl', hprop, hval⟩
    next hguid =>
      apply ih
      obtain ⟨l, hl, hprop, hval⟩ := h
      rcases List.mem_cons.mp hl with rfl | hl'
      · rw [hguid] at hprop; exact absurd hprop (by decide)
      · exact ⟨l, hl', hprop, hval⟩
    next hct =>
      split
      next hv => exact ⟨lineVal2 line, hv, rfl⟩
      next p hp =>
        apply ih
        obtain ⟨l, hl, hprop, hval⟩ := h
        rcases List.mem_cons.mp hl with rfl | hl'
        · rw [hp] at hval; cases hval
        · exact ⟨l, hl', hprop, hval⟩
    next horig =>
      apply ih
      obtain ⟨l, hl, hprop, hval⟩ := h
      rcases List.mem_cons.mp hl with rfl | hl'
      · rw [horig] at hprop; exact absurd hprop (by decide)
      · exact ⟨l, hl', hprop, hval⟩
    next h1 h2 h3 h4 =>
      apply ih
      obtain ⟨l, hl, hprop, hval⟩ := h
      rcases List.mem_cons.mp hl with rfl | hl'
      · exact absurd hprop h3
      · exact ⟨l, hl', hprop, hval⟩

/-- If some line of a two-column stream carries property `createtxg`
with an unconvertible value, the `GetSnapshot` parsing loop stops with
the parse-failure error. -/
theorem parseGetSnapLines_txg_error (ls : List String) :
    ∀ ds, (∃ l ∈ ls, lineProp2 l = "createtxg" ∧ parseInt64 (lineVal2 l) = none) →
      ∃ v, parseInt64 v = none ∧
        (parseGetSnapLines ds ls).2 =
          some ("unable to parse createtxg value " ++ q v ++ " to int64") := by
  induction ls with
  | nil => intro ds h; obtain ⟨l, hl, _⟩ := h; cases hl
  | cons line ls ih =>
    intro ds h
    simp only [parseGetSnapLines]
    split
    next hname =>
      apply ih
      obtain ⟨l, hl, hprop, hval⟩ := h
      rcases List.mem_cons.mp hl with rfl | hl'
      · rw [hname] at hprop; exact absurd hprop (by decide)
      · exact ⟨l, hl', hprop, hval⟩
    next hguid =>
      apply ih
      obtain ⟨l, hl, hprop, hval⟩ := h
      rcases List.mem_cons.mp hl with rfl | hl'
      · rw [hguid] at hprop; exact absurd hprop (by decide)
      · exact ⟨l, hl', hprop, hval⟩
    next hct =>
      split
      next hv => exact ⟨lineVal2 line, hv, rfl⟩
      next p hp =>
        apply ih
        obtain ⟨l, hl, hprop, hval⟩ := h
        rcases List.mem_cons.mp hl with rfl | hl'
        · rw [hp] at hval; cases hval
        · exact ⟨l, hl', hprop, hval⟩
    next h1 h2 h3 =>
      apply ih
      obtain ⟨l, hl, hprop, hval⟩ := h
      rcases List.mem_cons.mp hl with rfl | hl'
      · exact absurd hprop h3
      · exact ⟨l, hl', hprop, hval⟩

/-- The collection built by `ListSnapshots` is well-formed for every
behaviour of the external tool. -/
theorem ListSnapshots_goodMap (ex : Exec) (z : Zpool) :
    goodMap Snapshot.Name (z.ListSnapshots ex).1.1 := by
  simp only [Zpool.ListSnapshots]
  rcases hx : ex (snapshotsArgv z) with e | lines
  · exact ⟨List.nodup_nil, by intro p hp; cases hp⟩
  · exact parseSnapLines_goodMap lines [] ⟨List.nodup_nil, by intro p hp; cases hp⟩

/-- The collection built by `ListFilesystems` is well-formed for every
behaviour of the external tool. -/
theorem ListFilesystems_goodMap (ex : Exec) (z : Zpool) :
    goodMap Filesystem.Name (z.ListFilesystems ex).1.1 := by
  simp only [Zpool.ListFilesystems]
  rcases hx : ex (filesystemsArgv z) with e | lines
  · exact ⟨List.nodup_nil, by intro p hp; cases hp⟩
  · exact parseFsLines_goodMap lines [] ⟨List.nodup_nil, by intro p hp; cases hp⟩

/-- C2: parsing the three-line stream `ds1 TAB guid TAB G1`,
`ds1 TAB createtxg TAB 42`, `ds2 TAB guid TAB G2` with the list
operations succeeds and yields exactly the two records keyed `ds1` and
`ds2`, with `ds1` merged from its two lines (uniqueID `G1`, sequence
number 42) and `ds2` keeping the default sequence number 0; an
unrecognized property name inserted into the stream changes nothing. -/
theorem C2_roundtrip :
    (Zpool.mk "p").ListSnapshots
        (exLines ["ds1\tguid\tG1", "ds1\tcreatetxg\t42", "ds2\tguid\tG2"]) =
      (([("ds1", ⟨"ds1", "G1", 42⟩), ("ds2", ⟨"ds2", "G2", 0⟩)], none),
        [snapshotsArgv ⟨"p"⟩]) ∧
    (Zpool.mk "p").ListFilesystems
        (exLines ["ds1\tguid\tG1", "ds1\tcreatetxg\t42", "ds2\tguid\tG2"]) =
      (([("ds1", ⟨"ds1", "G1", "", 42⟩), ("ds2", ⟨"ds2", "G2", "", 0⟩)], none),
        [filesystemsArgv ⟨"p"⟩]) ∧
    parseSnapLines []
        ["ds1\tguid\tG1", "ds1\tcompression\tlz4", "ds1\tcreatetxg\t42", "ds2\tguid\tG2"] =
      parseSnapLines [] ["ds1\tguid\tG1", "ds1\tcreatetxg\t42", "ds2\tguid\tG2"] := by
  refine ⟨by decide, by decide, by decide⟩

/-- C9: a collection returned without error by `ListFilesystems` or
`ListSnapshots` has pairwise-distinct keys, and the record stored under
each key carries that key as its name. -/
theorem C9_map_invariant (ex : Exec) (z : Zpool) :
    ((z.ListSnapshots ex).1.2 = none →
      (((z.ListSnapshots ex).1.1.map Prod.fst).Nodup ∧
        ∀ p ∈ (z.ListSnapshots ex).1.1, p.2.Name = p.1)) ∧
    ((z.ListFilesystems ex).1.2 = none →
      (((z.ListFilesystems ex).1.1.map Prod.fst).Nodup ∧
        ∀ p ∈ (z.ListFilesystems ex).1.1, p.2.Name = p.1)) := by
  obtain ⟨hs1, hs2⟩ := ListSnapshots_goodMap ex z
  obtain ⟨hf1, hf2⟩ := ListFilesystems_goodMap ex z
  exact ⟨fun _ => ⟨hs1, hs2⟩, fun _ => ⟨hf1, hf2⟩⟩

/-- Witness for C9 at a concrete stream. -/
theorem C9_map_invariant_witness :
    ((((Zpool.mk "p").ListSnapshots (exLines ["p/a\tguid\tG1", "p/b\tguid\tG2"])).1.1.map
        Prod.fst).Nodup) ∧
    ((((Zpool.mk "p").ListFilesystems (exLines ["p/a\tguid\tG1", "p/b\tguid\tG2"])).1.1.map
        Prod.fst).Nodup) := by
  have h := C9_map_invariant (exLines ["p/a\tguid\tG1", "p/b\tguid\tG2"]) (Zpool.mk "p")
  exact ⟨(h.1 (by decide)).1, (h.2 (by decide)).1⟩

/-- C10: whenever `CreateFilesystem` returns a non-nil error, the
record it returns is the caller-supplied input record, unchanged. -/
theorem C10_error_returns_input (ex : Exec) (z : Zpool) (fs : Filesystem)
    (h : ((z.CreateFilesystem ex fs).1.2).isSome = true) :
    (z.CreateFilesystem ex fs).1.1 = fs := by
  by_cases hv : (fs.Name.length = 0 ∨ fs.CreateTxg ≠ 0 ∨ goHasPrefix fs.Name z.Name = false)
  · simp only [Zpool.CreateFilesystem, if_pos hv]
  · simp only [Zpool.CreateFilesystem, if_neg hv] at h ⊢
    rcases hx : ex (createFsArgv fs) with e | out
    · rfl
    · rcases hg : (z.GetFilesystem ex fs.Name).1.2 with _ | e2
      · rw [hx, hg] at h
        simp at h
      · rfl

/-- Witness for C10 at a concrete failing creation. -/
theorem C10_error_returns_input_witness :
    ((Zpool.mk "tank").CreateFilesystem exFail ⟨"tank/x", "", "", 0⟩).1.1 =
      ⟨"tank/x", "", "", 0⟩ :=
  C10_error_returns_input exFail (Zpool.mk "tank") ⟨"tank/x", "", "", 0⟩ (by decide)

/-- C1 counterexample: on pool `tank`, the requested filesystem name
`tankX` and snapshot name `tankXs` do not begin with the pool's name
followed by `/`, yet both creation operations proceed to spawn a
subprocess instead of rejecting the request. -/
theorem C1_counterexample :
    goHasPrefix "tankX" ("tank" ++ "/") = false ∧
    goHasPrefix "tankXs" ("tank" ++ "/") = false ∧
    ((Zpool.mk "tank").CreateFilesystem exFail ⟨"tankX", "", "", 0⟩).2 = [["create", "tankX"]] ∧
    ((Zpool.mk "tank").CreateSnapshot exFail "tankXs").2 = [["snapshot", "tankXs"]] := by
  refine ⟨by decide, by decide, by decide, by decide⟩

/-- C1 (amended): `CreateFilesystem` and `CreateSnapshot` reject the
request with a validation error, without spawning any subprocess,
whenever the name is empty or does not begin with the pool's name as a
plain string prefix (the `/` separator is not required), and, for
`CreateFilesystem` only, whenever the requested sequence number is
nonzero; a request passing these checks proceeds to a subprocess
call. -/
theorem C1_amended_validation (ex : Exec) (z : Zpool) (fs : Filesystem) (sname : String) :
    ((fs.Name.length = 0 ∨ fs.CreateTxg ≠ 0 ∨ goHasPrefix fs.Name z.Name = false) →
      (z.CreateFilesystem ex fs).2 = [] ∧
      (z.CreateFilesystem ex fs).1.2 =
        some ("filesystem " ++ q fs.Name ++ " cannot be created on zpool " ++ q z.Name)) ∧
    (¬(fs.Name.length = 0 ∨ fs.CreateTxg ≠ 0 ∨ goHasPrefix fs.Name z.Name = false) →
      (z.CreateFilesystem ex fs).2.head? = some (createFsArgv fs)) ∧
    ((sname.length = 0 ∨ goHasPrefix sname z.Name = false) →
      (z.CreateSnapshot ex sname).2 = [] ∧
      (z.CreateSnapshot ex sname).1.2 =
        some ("snapshot " ++ q sname ++ " cannot be created on zpool " ++ q z.Name)) ∧
    (¬(sname.length = 0 ∨ goHasPrefix sname z.Name = false) →
      (z.CreateSnapshot ex sname).2.head? = some ["snapshot", sname]) := by
  refine ⟨?_, ?_, ?_, ?_⟩
  · intro hv
    simp only [Zpool.CreateFilesystem, if_pos hv]
    constructor <;> trivial
  · intro hv
    simp only [Zpool.CreateFilesystem, if_neg hv]
    rcases hx : ex (createFsArgv fs) with e | out
    · rfl
    · rcases hg : (z.GetFilesystem ex fs.Name).1.2 with _ | e2 <;> rfl
  · intro hv
    simp only [Zpool.CreateSnapshot, if_pos hv]
    constructor <;> trivial
  · intro hv
    simp only [Zpool.CreateSnapshot, if_neg hv]
    rcases hx : ex ["snapshot", sname] with e | out
    · rfl
    · rcases hg : (z.GetSnapshot ex sname).1.2 with _ | e2 <;> rfl

/-- Witness for the amended C1: a nonzero sequence number is rejected
without a subprocess, and names that merely extend the pool's name
proceed to a subprocess call. -/
theorem C1_amended_validation_witness :
    ((Zpool.mk "tank").CreateFilesystem exFail ⟨"tank/x", "", "", 5⟩).2 = [] ∧
    ((Zpool.mk "tank").CreateSnapshot exFail "").2 = [] ∧
    ((Zpool.mk "tank").CreateFilesystem exFail ⟨"tankX", "", "", 0⟩).2.head? =
      some (createFsArgv ⟨"tankX", "", "", 0⟩) ∧
    ((Zpool.mk "tank").CreateSnapshot exFail "tank/x@s").2.head? =
      some ["snapshot", "tank/x@s"] := by
  have h1 := C1_amended_validation exFail (Zpool.mk "tank") ⟨"tank/x", "", "", 5⟩ ""
  have h2 := C1_amended_validation exFail (Zpool.mk "tank") ⟨"tankX", "", "", 0⟩ "tank/x@s"
  exact ⟨(h1.1 (by decide)).1, (h1.2.2.1 (by decide)).1,
    h2.2.1 (by decide), h2.2.2.2 (by decide)⟩

/-- C4: a request passing `CreateFilesystem`'s validation issues a
plain `create` call for the requested name when the requested origin is
empty or `-`, and a `clone` call from that origin to the requested name
otherwise. -/
theorem C4_create_or_clone (ex : Exec) (z : Zpool) (fs : Filesystem)
    (h : ¬(fs.Name.length = 0 ∨ fs.CreateTxg ≠ 0 ∨ goHasPrefix fs.Name z.Name = false)) :
    (z.CreateFilesystem ex fs).2.head? =
      some (if fs.Origin.length = 0 ∨ fs.Origin = "-" then ["create", fs.Name]
            else ["clone", fs.Origin, fs.Name]) := by
  simp only [Zpool.CreateFilesystem, if_neg h]
  rcases hx : ex (createFsArgv fs) with e | out
  · rfl
  · rcases hg : (z.GetFilesystem ex fs.Name).1.2 with _ | e2 <;> rfl

/-- Witness for C4: one plain creation and one clone creation. -/
theorem C4_create_or_clone_witness :
    ((Zpool.mk "tank").CreateFilesystem exFail ⟨"tank/x", "", "", 0⟩).2.head? =
      some ["create", "tank/x"] ∧
    ((Zpool.mk "tank").CreateFilesystem exFail ⟨"tank/x", "", "tank/y@s", 0⟩).2.head? =
      some ["clone", "tank/y@s", "tank/x"] := by
  have h1 := C4_create_or_clone exFail (Zpool.mk "tank") ⟨"tank/x", "", "", 0⟩ (by decide)
  have h2 := C4_create_or_clone exFail (Zpool.mk "tank") ⟨"tank/x", "", "tank/y@s", 0⟩
    (by decide)
  exact ⟨by rw [h1]; decide, by rw [h2]; decide⟩

/-- C8: `ExistsByName` answers `false` without spawning a subprocess
for the empty name and for every name not prefixed by the pool's name;
for every other name it spawns exactly the existence probe and answers
`true` precisely when the probe succeeds, errors never being
surfaced. -/
theorem C8_exists_by_name (ex : Exec) (z : Zpool) (name : String) :
    ((name.length = 0 ∨ goHasPrefix name z.Name = false) →
      z.ExistsByName ex name = (false, [])) ∧
    (¬(name.length = 0 ∨ goHasPrefix name z.Name = false) →
      (z.ExistsByName ex name).2 = [existsArgv name] ∧
      ((z.ExistsByName ex name).1 = true ↔ ∃ out, ex (existsArgv name) = .ok out)) := by
  constructor
  · intro hv
    simp only [Zpool.ExistsByName, if_pos hv]
  · intro hv
    simp only [Zpool.ExistsByName, if_neg hv]
    rcases hx : ex (existsArgv name) with e | out
    · refine ⟨rfl, ?_⟩
      simp only [hx]
      constructor
      · intro hc; cases hc
      · rintro ⟨o, ho⟩; cases ho
    · exact ⟨rfl, ⟨fun _ => ⟨out, rfl⟩, fun _ => rfl⟩⟩

/-- Witness for C8: empty name, out-of-pool name, a succeeding probe
and a failing probe. -/
theorem C8_exists_by_name_witness :
    (Zpool.mk "tank").ExistsByName exFail "" = (false, []) ∧
    (Zpool.mk "tank").ExistsByName exFail "bogus/x" = (false, []) ∧
    ((Zpool.mk "tank").ExistsByName (exLines []) "tank/x").1 = true ∧
    ((Zpool.mk "tank").ExistsByName exFail "tank/x").1 = false := by
  have h1 := C8_exists_by_name exFail (Zpool.mk "tank") ""
  have h2 := C8_exists_by_name exFail (Zpool.mk "tank") "bogus/x"
  have h3 := C8_exists_by_name (exLines []) (Zpool.mk "tank") "tank/x"
  have h4 := C8_exists_by_name exFail (Zpool.mk "tank") "tank/x"
  refine ⟨h1.1 (by decide), h2.1 (by decide), ?_, ?_⟩
  · exact ((h3.2 (by decide)).2).mpr ⟨[], rfl⟩
  · have hiff := (h4.2 (by decide)).2
    by_contra hc
    rw [Bool.not_eq_false] at hc
    obtain ⟨o, ho⟩ := hiff.mp hc
    cases ho

/-- C3: when the stream handed to a parsing operation carries a
`createtxg` property whose value does not convert to a 64-bit integer,
each of the four parsing operations returns the conversion-failure
error rather than defaulting the field. -/
theorem C3_malformed_createtxg (ex : Exec) (z : Zpool) (name : String)
    (ls3 ls2 : List String)
    (h3 : ∃ l ∈ ls3, lineProp3 l = "createtxg" ∧ parseInt64 (lineVal3 l) = none)
    (h2 : ∃ l ∈ ls2, lineProp2 l = "createtxg" ∧ parseInt64 (lineVal2 l) = none) :
    (ex (snapshotsArgv z) = .ok ls3 →
      ∃ v, parseInt64 v = none ∧
        (z.ListSnapshots ex).1.2 =
          some ("unable to convert createtxg value " ++ q v ++ " to int64")) ∧
    (ex (filesystemsArgv z) = .ok ls3 →
      ∃ v, parseInt64 v = none ∧
        (z.ListFilesystems ex).1.2 =
          some ("unable to convert createtxg value " ++ q v ++ " to int64")) ∧
    (goHasPrefix name z.Name = true → ex (getFsArgv name) = .ok ls2 →
      ∃ v, parseInt64 v = none ∧
        (z.GetFilesystem ex name).1.2 =
          some ("unable to parse createtxg value " ++ q v ++ " to int64")) ∧
    (goHasPrefix name z.Name = true → ex (getSnapArgv name) = .ok ls2 →
      ∃ v, parseInt64 v = none ∧
        (z.GetSnapshot ex name).1.2 =
          some ("unable to parse createtxg value " ++ q v ++ " to int64")) := by
  refine ⟨?_, ?_, ?_, ?_⟩
  · intro hx
    simp only [Zpool.ListSnapshots, hx]
    exact parseSnapLines_txg_error ls3 [] h3
  · intro hx
    simp only [Zpool.ListFilesystems, hx]
    exact parseFsLines_txg_error ls3 [] h3
  · intro hp hx
    have hnp : ¬(goHasPrefix name z.Name = false) := by rw [hp]; simp
    simp only [Zpool.GetFilesystem, if_neg hnp, hx]
    exact parseGetFsLines_txg_error ls2 fsZero h2
  · intro hp hx
    have hnp : ¬(goHasPrefix name z.Name = false) := by rw [hp]; simp
    simp only [Zpool.GetSnapshot, if_neg hnp, hx]
    exact parseGetSnapLines_txg_error ls2 snapZero h2

/-- Witness for C3: a tool whose streams carry `createtxg abc` makes
all four parsing operations fail. -/
theorem C3_malformed_createtxg_witness :
    ((Zpool.mk "tank").ListSnapshots exBadTxg).1.2.isSome = true ∧
    ((Zpool.mk "tank").ListFilesystems exBadTxg).1.2.isSome = true ∧
    ((Zpool.mk "tank").GetFilesystem exBadTxg "tank/a").1.2.isSome = true ∧
    ((Zpool.mk "tank").GetSnapshot exBadTxg "tank/a").1.2.isSome = true := by
  obtain ⟨h1, h2, h3, h4⟩ := C3_malformed_createtxg exBadTxg (Zpool.mk "tank") "tank/a"
    ["tank/a\tcreatetxg\tabc"] ["createtxg\tabc"] (by decide) (by decide)
  obtain ⟨v1, _, e1⟩ := h1 (by rfl)
  obtain ⟨v2, _, e2⟩ := h2 (by rfl)
  obtain ⟨v3, _, e3⟩ := h3 (by decide) (by rfl)
  obtain ⟨v4, _, e4⟩ := h4 (by decide) (by rfl)
  rw [e1, e2, e3, e4]
  exact ⟨rfl, rfl, rfl, rfl⟩

/-- C5: when the creation subprocess succeeds, `CreateFilesystem` and
`CreateSnapshot` return the record of the fresh get on the created
name; when that confirmation fetch fails, the returned error is the
retrieval-after-creation error, not the creation-failure error. -/
theorem C5_post_create_fetch (ex : Exec) (z : Zpool) (fs : Filesystem) (sname : String) :
    (¬(fs.Name.length = 0 ∨ fs.CreateTxg ≠ 0 ∨ goHasPrefix fs.Name z.Name = false) →
      (∃ out, ex (createFsArgv fs) = .ok out) →
      ((z.GetFilesystem ex fs.Name).1.2 = none →
        (z.CreateFilesystem ex fs).1 = ((z.GetFilesystem ex fs.Name).1.1, none)) ∧
      (∀ e0, (z.GetFilesystem ex fs.Name).1.2 = some e0 →
        ∃ e, (z.CreateFilesystem ex fs).1.2 = some e ∧
          goHasPrefix e "unable to retrieve filesystem" = true ∧
          goHasPrefix e "unable to create filesystem" = false)) ∧
    (¬(sname.length = 0 ∨ goHasPrefix sname z.Name = false) →
      (∃ out, ex ["snapshot", sname] = .ok out) →
      ((z.GetSnapshot ex sname).1.2 = none →
        (z.CreateSnapshot ex sname).1 = ((z.GetSnapshot ex sname).1.1, none)) ∧
      (∀ e0, (z.GetSnapshot ex sname).1.2 = some e0 →
        ∃ e, (z.CreateSnapshot ex sname).1.2 = some e ∧
          goHasPrefix e "unable to retrieve snapshot" = true ∧
          goHasPrefix e "unable to create snapshot" = false)) := by
  constructor
  · intro hv hok
    obtain ⟨out, hx⟩ := hok
    simp only [Zpool.CreateFilesystem, if_neg hv, hx]
    constructor
    · intro hg
      rw [hg]
    · intro e0 hg
      rw [hg]
      have t1 : goHasPrefix ("unable to retrieve filesystem " : String)
          "unable to retrieve filesystem" = true := by decide
      have t2 := goHasPrefix_append _ _ (q fs.Name) t1
      have t3 := goHasPrefix_append _ _ " after creation: " t2
      have t4 := goHasPrefix_append _ _ e0 t3
      have f1 : goHasPrefix ("unable to retrieve filesystem " : String)
          "unable to create filesystem" = false := by decide
      have l1 : ("unable to create filesystem" : String).data.length ≤
          ("unable to retrieve filesystem " : String).data.length := by decide
      have f2 := goHasPrefix_append_false _ _ (q fs.Name) l1 f1
      have l2 : ("unable to create filesystem" : String).data.length ≤
          ("unable to retrieve filesystem " ++ q fs.Name).data.length := by
        rw [data_length_append]; exact le_trans l1 (Nat.le_add_right _ _)
      have f3 := goHasPrefix_append_false _ _ " after creation: " l2 f2
      have l3 : ("unable to create filesystem" : String).data.length ≤
          (("unable to retrieve filesystem " ++ q fs.Name) ++ " after creation: ").data.length := by
        rw [data_length_append]; exact le_trans l2 (Nat.le_add_right _ _)
      have f4 := goHasPrefix_append_false _ _ e0 l3 f3
      exact ⟨_, rfl, t4, f4⟩
  · intro hv hok
    obtain ⟨out, hx⟩ := hok
    simp only [Zpool.CreateSnapshot, if_neg hv, hx]
    constructor
    · intro hg
      rw [hg]
    · intro e0 hg
      rw [hg]
      have t1 : goHasPrefix ("unable to retrieve snapshot " : String)
          "unable to retrieve snapshot" = true := by decide
      have t2 := goHasPrefix_append _ _ (q (z.GetSnapshot ex sname).1.1.Name) t1
      have t3 := goHasPrefix_append _ _ " after creation: " t2
      have t4 := goHasPrefix_append _ _ e0 t3
      have f1 : goHasPrefix ("unable to retrieve snapshot " : String)
          "unable to create snapshot" = false := by decide
      have l1 : ("unable to create snapshot" : String).data.length ≤
          ("unable to retrieve snapshot " : String).data.length := by decide
      have f2 := goHasPrefix_append_false _ _ (q (z.GetSnapshot ex sname).1.1.Name) l1 f1
      have l2 : ("unable to create snapshot" : String).data.length ≤
          ("unable to retrieve snapshot " ++ q (z.GetSnapshot ex sname).1.1.Name).data.length := by
        rw [data_length_append]; exact le_trans l1 (Nat.le_add_right _ _)
      have f3 := goHasPrefix_append_false _ _ " after creation: " l2 f2
      have l3 : ("unable to create snapshot" : String).data.length ≤
          (("unable to retrieve snapshot " ++ q (z.GetSnapshot ex sname).1.1.Name) ++
            " after creation: ").data.length := by
        rw [data_length_append]; exact le_trans l2 (Nat.le_add_right _ _)
      have f4 := goHasPrefix_append_false _ _ e0 l3 f3
      exact ⟨_, rfl, t4, f4⟩

/-- Witness for C5: with a tool where creation succeeds, the returned
record is the refetched one; with a tool where the confirmation fetch
fails, the error is the retrieval error and not the creation error. -/
theorem C5_post_create_fetch_witness :
    ((Zpool.mk "tank").CreateFilesystem exCreateOk ⟨"tank/x", "", "", 0⟩).1 =
      (((Zpool.mk "tank").GetFilesystem exCreateOk "tank/x").1.1, none) ∧
    ((Zpool.mk "tank").CreateSnapshot exCreateOk "tank/x@s").1 =
      (((Zpool.mk "tank").GetSnapshot exCreateOk "tank/x@s").1.1, none) ∧
    goHasPrefix
      (((Zpool.mk "tank").CreateFilesystem exCreateOkGetFail
        ⟨"tank/x", "", "", 0⟩).1.2.getD "") "unable to retrieve filesystem" = true ∧
    goHasPrefix
      (((Zpool.mk "tank").CreateSnapshot exCreateOkGetFail
        "tank/x@s").1.2.getD "") "unable to create snapshot" = false := by
  have h1 := C5_post_create_fetch exCreateOk (Zpool.mk "tank") ⟨"tank/x", "", "", 0⟩ "tank/x@s"
  have h2 := C5_post_create_fetch exCreateOkGetFail (Zpool.mk "tank")
    ⟨"tank/x", "", "", 0⟩ "tank/x@s"
  refine ⟨(h1.1 (by decide) ⟨[], rfl⟩).1 (by decide),
          (h1.2 (by decide) ⟨[], rfl⟩).1 (by decide), ?_, ?_⟩
  · obtain ⟨e, he, ht, _⟩ := (h2.1 (by decide) ⟨[], rfl⟩).2 _ (by rfl)
    rw [he]
    exact ht
  · obtain ⟨e, he, _, hf⟩ := (h2.2 (by decide) ⟨[], rfl⟩).2 _ (by rfl)
    rw [he]
    exact hf

/-- C6: when the snapshot listing succeeds, `SnapshotsOf` returns
exactly the listed snapshots whose name before the first `@` equals the
filesystem's name. -/
theorem C6_snapshots_of (ex : Exec) (z : Zpool) (fs : Filesystem)
    (h : (z.ListSnapshots ex).1.2 = none) :
    (z.SnapshotsOf ex fs).1.2 = none ∧
    ∀ s : Snapshot, s ∈ (z.SnapshotsOf ex fs).1.1 ↔
      (s ∈ (z.ListSnapshots ex).1.1.map Prod.snd ∧ beforeAt s.Name = fs.Name) := by
  simp only [Zpool.SnapshotsOf, h]
  refine ⟨trivial, ?_⟩
  intro s
  rw [List.mem_filter]
  simp

/-- Witness for C6: `pool/f@s1` is a snapshot of `pool/f`, while
`pool/f2@s2`, whose filesystem shares the name prefix `pool/f`, is
excluded. -/
theorem C6_snapshots_of_witness :
    (⟨"pool/f@s1", "G1", 0⟩ : Snapshot) ∈
      ((Zpool.mk "pool").SnapshotsOf (exLines ["pool/f@s1\tguid\tG1", "pool/f2@s2\tguid\tG2"])
        ⟨"pool/f", "", "", 0⟩).1.1 ∧
    (⟨"pool/f2@s2", "G2", 0⟩ : Snapshot) ∉
      ((Zpool.mk "pool").SnapshotsOf (exLines ["pool/f@s1\tguid\tG1", "pool/f2@s2\tguid\tG2"])
        ⟨"pool/f", "", "", 0⟩).1.1 := by
  have h := C6_snapshots_of (exLines ["pool/f@s1\tguid\tG1", "pool/f2@s2\tguid\tG2"])
    (Zpool.mk "pool") ⟨"pool/f", "", "", 0⟩ (by decide)
  constructor
  · exact (h.2 ⟨"pool/f@s1", "G1", 0⟩).mpr (by decide)
  · intro hm
    exact absurd ((h.2 ⟨"pool/f2@s2", "G2", 0⟩).mp hm).2 (by decide)

/-- C7: when the filesystem listing succeeds, `ClonesOf` returns
exactly the listed filesystems whose origin equals the snapshot's name,
without duplicates. -/
theorem C7_clones_of (ex : Exec) (z : Zpool) (s : Snapshot)
    (h : (z.ListFilesystems ex).1.2 = none) :
    (z.ClonesOf ex s).1.2 = none ∧
    (∀ f : Filesystem, f ∈ (z.ClonesOf ex s).1.1 ↔
      (f ∈ (z.ListFilesystems ex).1.1.map Prod.snd ∧ f.Origin = s.Name)) ∧
    (z.ClonesOf ex s).1.1.Nodup := by
  obtain ⟨hg1, hg2⟩ := ListFilesystems_goodMap ex z
  have hnames : ((z.ListFilesystems ex).1.1.map Prod.snd).map Filesystem.Name =
      (z.ListFilesystems ex).1.1.map Prod.fst := by
    rw [List.map_map]
    exact List.map_congr_left (fun p hp => hg2 p hp)
  have hvals : ((z.ListFilesystems ex).1.1.map Prod.snd).Nodup := by
    apply List.Nodup.of_map Filesystem.Name
    rw [hnames]
    exact hg1
  simp only [Zpool.ClonesOf, h]
  refine ⟨trivial, ?_, ?_⟩
  · intro f
    rw [List.mem_filter]
    simp
  · exact hvals.filter _

/-- Witness for C7: two clones of `p/f@s` are returned, without
duplicates, and a non-clone is excluded. -/
theorem C7_clones_of_witness :
    (⟨"p/c1", "", "p/f@s", 0⟩ : Filesystem) ∈
      ((Zpool.mk "p").ClonesOf
        (exLines ["p/c1\torigin\tp/f@s", "p/c2\torigin\tp/f@s", "p/d\torigin\t-"])
        ⟨"p/f@s", "", 0⟩).1.1 ∧
    (⟨"p/c2", "", "p/f@s", 0⟩ : Filesystem) ∈
      ((Zpool.mk "p").ClonesOf
        (exLines ["p/c1\torigin\tp/f@s", "p/c2\torigin\tp/f@s", "p/d\torigin\t-"])
        ⟨"p/f@s", "", 0⟩).1.1 ∧
    ((Zpool.mk "p").ClonesOf
        (exLines ["p/c1\torigin\tp/f@s", "p/c2\torigin\tp/f@s", "p/d\torigin\t-"])
        ⟨"p/f@s", "", 0⟩).1.1.Nodup := by
  have h := C7_clones_of
    (exLines ["p/c1\torigin\tp/f@s", "p/c2\torigin\tp/f@s", "p/d\torigin\t-"])
    (Zpool.mk "p") ⟨"p/f@s", "", 0⟩ (by decide)
  exact ⟨(h.2.1 ⟨"p/c1", "", "p/f@s", 0⟩).mpr (by decide),
         (h.2.1 ⟨"p/c2", "", "p/f@s", 0⟩).mpr (by decide),
         h.2.2⟩
